import Mathlib

/-!
Shallow embedding of the core of `procshot_server` (src/src/lib.rs): the
snapshot data model (`PidStatus`, `EncoDecode`), the CPU usage estimator
(`get_cpu_usage`), the aggregate CPU time reader (`read_proc_stat`), and one
cycle of the scan loop (`scan_proc`'s loop body, embedded as `scanStep`).

Rust `u32`/`u64` fields are embedded as `Nat`, `i32`/`i64` as `Int`, and `f64`
results of the estimator as `ℚ` (the estimator only converts integers,
subtracts, multiplies and divides, which is exact at the small magnitudes
involved; division by zero is the one IEEE edge the embedding does not share).
The `HashMap<i32, PidStatus>` is embedded as an association list with unique
keys, looked up with `List.lookup` and updated with `insertA`.
-/

/-- Embedding of the Rust struct `PidStatus` (src/src/lib.rs lines 41-92):
the per-process record stored in each snapshot. -/
structure PidStatus where
  ppid : Int
  euid : Int
  cmd_long : List String
  name : String
  cmd_short : String
  tracerpid : Int
  fdsize : Nat
  state : String
  vmpeak : Option Nat
  vmsize : Option Nat
  rss_pages : Int
  rss_bytes : Int
  rsslim_bytes : Nat
  processor_last_executed : Option Int
  utime : Nat
  stime : Nat
  user_cpu_usage : ℚ
  sys_cpu_usage : ℚ
  deriving Repr, DecidableEq

/-- Embedding of the Rust struct `EncoDecode` (src/src/lib.rs lines 97-107):
one snapshot as serialized to disk. The pid map is an association list with
unique keys standing for the `HashMap<i32, PidStatus>`. -/
structure EncoDecode where
  hostname : String
  pid_map_list : List (Int × PidStatus)
  time_epoch : Nat
  delay : Nat
  total_cpu_time : Nat
  deriving Repr, DecidableEq

/-- Embedding of `get_cpu_usage` (src/src/lib.rs lines 206-243). The Rust
function matches on the `type_of` string, looks `pid` up in the optional
previous map, and computes
`100 * (current_type_time - previous_ticks) / (current_cpu_time - previous_cpu_time)`
in `f64`; unknown keywords print a message and fall through to `0.0`. -/
def get_cpu_usage (type_of : String) (pid : Int)
    (previous : Option (List (Int × PidStatus)))
    (current_type_time current_cpu_time previous_cpu_time : Nat) : ℚ :=
  if type_of = "user" then
    match previous with
    | some x =>
      match x.lookup pid with
      | some p =>
          100 * ((current_type_time : ℚ) - (p.utime : ℚ)) /
            ((current_cpu_time : ℚ) - (previous_cpu_time : ℚ))
      | none => 0
    | none => 0
  else if type_of = "system" then
    match previous with
    | some x =>
      match x.lookup pid with
      | some p =>
          100 * ((current_type_time : ℚ) - (p.stime : ℚ)) /
            ((current_cpu_time : ℚ) - (previous_cpu_time : ℚ))
      | none => 0
    | none => 0
  else
    0

/-! ### Aggregate CPU time reader (`read_proc_stat`, src/src/lib.rs 246-277)

The reader opens `/proc/stat`, reads the first line, splits it at `"cpu"`,
takes element 1, splits that at single spaces, filters empty fields, and sums
`parse::<u64>().unwrap()` over the fields.  The unwrap means a field that does
not parse as `u64` panics; open/read failures and a missing first line are
returned as `Err`.  The environment the reader consumes is embedded as
`ProcStatSource`; the three observable outcomes as `RpsOutcome`, with
`panicked` marking the unwind of an `unwrap` panic. -/

/-- The state of `/proc/stat` as the reader can observe it: unopenable, open
but without a first line, a first line whose read errors, or a first line with
the given contents. -/
inductive ProcStatSource where
  | cantOpen
  | noFirstLine
  | lineReadErr
  | line (s : String)
  deriving Repr, DecidableEq

/-- Outcome of one invocation of the reader: a returned total, a returned
error, or a panic (from `parse().unwrap()` or an out-of-bounds index). -/
inductive RpsOutcome where
  | ok (total : Nat)
  | err
  | panicked
  deriving Repr, DecidableEq

/-- Strip `sep` from the front of `s`: `some` remainder when `sep` is a
prefix, `none` otherwise. Helper for the substring split below. -/
def dropSep : List Char → List Char → Option (List Char)
  | [], s => some s
  | _ :: _, [] => none
  | a :: as, b :: bs => if a = b then dropSep as bs else none

/-- Fuel-driven core of substring splitting, matching Rust's
`str::split(pattern)` semantics for a non-empty pattern: scan left to right,
cut at each occurrence of `sep`. `cur` accumulates the current piece
reversed. -/
def splitSubAux (sep : List Char) : Nat → List Char → List Char → List (List Char)
  | 0, cur, _ => [cur.reverse]
  | _ + 1, cur, [] => [cur.reverse]
  | fuel + 1, cur, c :: rest =>
    match dropSep sep (c :: rest) with
    | some rem => cur.reverse :: splitSubAux sep fuel [] rem
    | none => splitSubAux sep fuel (c :: cur) rest

/-- Split `s` at each occurrence of the non-empty separator `sep`, as Rust's
`str::split` does. -/
def splitSub (sep s : List Char) : List (List Char) :=
  splitSubAux sep (s.length + 1) [] s

/-- Embedding of Rust's `str::parse::<u64>()`: an optional leading `+`, then
one or more ASCII digits, value below `2 ^ 64`. -/
def parseU64 (s : List Char) : Option Nat :=
  let t := match s with
    | '+' :: rest => rest
    | _ => s
  if t = [] then none
  else if t.all (fun c => 48 ≤ c.toNat ∧ c.toNat ≤ 57) then
    let n := t.foldl (fun a c => a * 10 + (c.toNat - 48)) 0
    if n < 2 ^ 64 then some n else none
  else none

/-- Embedding of `read_proc_stat` (src/src/lib.rs lines 246-277).  Open and
first-line read failures return `Err`; a first line without an occurrence of
`"cpu"` makes the `[1]` index panic; a field that fails `parse::<u64>()`
makes the `unwrap` panic; otherwise the fields are summed with `u64`
(wrapping) addition. -/
def read_proc_stat (src : ProcStatSource) : RpsOutcome :=
  match src with
  | .cantOpen => .err
  | .noFirstLine => .err
  | .lineReadErr => .err
  | .line s =>
    match splitSub "cpu".data s.data with
    | _ :: second :: _ =>
      let fields := (splitSub [' '] second).filter (fun f => f ≠ [])
      if fields.all (fun f => (parseU64 f).isSome) then
        .ok (fields.foldl (fun a f => (a + (parseU64 f).getD 0) % 2 ^ 64) 0)
      else .panicked
    | _ => .panicked

/-! ### One cycle of the scan loop (`scan_proc`, src/src/lib.rs 113-201)

`scan_proc` keeps two mutable locals across iterations, `previous_stats` and
`previous_cpu_time` (embedded as `ScanState`).  Each iteration reads
`/proc/stat`; on `Err` it prints and `continue`s — jumping straight back to
the top of the loop, before the sleep, without touching the previous state.
On `Ok` it folds over the enumerated processes building the pid map (the
record whose `status()` errors is replaced by `dummy_pid_status()`; records
with `vmpeak == None || rss == 0 || pid < 0` are skipped), advances the
previous state, assembles the `EncoDecode`, and writes it: a failed
`File::create` is only logged, while a failed `write_all` hits `unwrap` and
panics.  Finally it sleeps for `delay` seconds.

The per-cycle environment (the `/proc/stat` source, the enumerated process
records, the wall clock, the write outcome) is embedded as `CycleInput`; the
observable effects of one loop body as `CycleResult`, where `slept` records
whether the iteration reached `thread::sleep` and `panicked` whether it
unwound. -/

/-- The fields of `procfs::Stat` (`prc.stat`) that `scan_proc` reads. -/
structure PStat where
  comm : String
  rss : Int
  rss_bytes : Int
  rsslim : Nat
  processor : Option Int
  utime : Nat
  stime : Nat
  deriving Repr, DecidableEq

/-- The fields of `procfs::Status` (`prc.status()`) that `scan_proc` reads. -/
structure PStatus where
  name : String
  pid : Int
  ppid : Int
  tracerpid : Int
  euid : Int
  fdsize : Nat
  state : String
  vmpeak : Option Nat
  vmsize : Option Nat
  deriving Repr, DecidableEq

/-- One enumerated `procfs::Process`: its `stat` field, the result of its
`status()` accessor (`none` embeds an `Err`), and the result of its
`cmdline()` accessor (`none` embeds an `Err`). -/
structure ProcRecord where
  stat : PStat
  statusResult : Option PStatus
  cmdlineResult : Option (List String)
  deriving Repr, DecidableEq

/-- The fields of `dummy_pid_status()` (src/src/lib.rs lines 280-343) that
the loop reads: name and state are a fixed placeholder, ids are `-1`, and
`fdsize`/`vmpeak`/`vmsize` are maximum-valued counters. -/
def dummy_pid_status : PStatus where
  name := "Dummy because unwrap failed"
  pid := -1
  ppid := -1
  tracerpid := -1
  euid := -1
  fdsize := 2 ^ 32 - 1
  state := "Dummy because unwrap failed"
  vmpeak := some (2 ^ 64 - 1)
  vmsize := some (2 ^ 64 - 1)

/-- `HashMap::insert`: bind `k` to `v`, replacing any previous binding.  The
association list keeps unique keys; `List.lookup` finds the new binding
first. -/
def insertA (m : List (Int × PidStatus)) (k : Int) (v : PidStatus) :
    List (Int × PidStatus) :=
  (k, v) :: m.filter (fun kv => kv.1 ≠ k)

/-- The `PidStatus` record built for one included process (the struct literal
at src/src/lib.rs lines 139-174). -/
def mkPidStatus (previous : Option (List (Int × PidStatus)))
    (previous_cpu_time total_cpu_time : Nat) (prc : ProcRecord)
    (status : PStatus) : PidStatus where
  ppid := status.ppid
  euid := status.euid
  cmd_long := prc.cmdlineResult.getD ["No cmd_long found"]
  name := status.name
  cmd_short := prc.stat.comm
  tracerpid := status.tracerpid
  fdsize := status.fdsize
  state := status.state
  vmpeak := status.vmpeak
  vmsize := status.vmsize
  rss_pages := prc.stat.rss
  rss_bytes := prc.stat.rss_bytes
  rsslim_bytes := prc.stat.rsslim
  processor_last_executed := prc.stat.processor
  utime := prc.stat.utime
  stime := prc.stat.stime
  user_cpu_usage :=
    get_cpu_usage "user" status.pid previous prc.stat.utime total_cpu_time
      previous_cpu_time
  sys_cpu_usage :=
    get_cpu_usage "system" status.pid previous prc.stat.stime total_cpu_time
      previous_cpu_time

/-- The body of the `for prc in procfs::all_processes()` loop for one record:
substitute `dummy_pid_status()` when `status()` failed, skip the record when
`vmpeak == None || rss == 0 || pid < 0`, otherwise insert the built record
keyed by its pid. -/
def cycleMapStep (previous : Option (List (Int × PidStatus)))
    (previous_cpu_time total_cpu_time : Nat)
    (m : List (Int × PidStatus)) (prc : ProcRecord) :
    List (Int × PidStatus) :=
  let status := prc.statusResult.getD dummy_pid_status
  if status.vmpeak = none ∨ prc.stat.rss = 0 ∨ status.pid < 0 then m
  else
    insertA m status.pid
      (mkPidStatus previous previous_cpu_time total_cpu_time prc status)

/-- The cross-cycle state of `scan_proc`: the `previous_stats` and
`previous_cpu_time` locals. -/
structure ScanState where
  previous_stats : Option (List (Int × PidStatus))
  previous_cpu_time : Nat
  deriving Repr, DecidableEq

/-- What the snapshot writer does on this cycle: `File::create` fails, or the
`write_all` fails, or both succeed. -/
inductive WriteOutcome where
  | createFailed
  | writeFailed
  | ok
  deriving Repr, DecidableEq

/-- The external environment one loop iteration consumes. -/
structure CycleInput where
  statSource : ProcStatSource
  procs : List ProcRecord
  time_epoch : Nat
  writeOutcome : WriteOutcome
  deriving Repr, DecidableEq

/-- The observable effects of one loop iteration: the state carried to the
next iteration, the snapshot handed to a successful write (if any), whether
the iteration reached `thread::sleep(delay)`, and whether it panicked. -/
structure CycleResult where
  state : ScanState
  written : Option EncoDecode
  slept : Bool
  panicked : Bool
  deriving Repr, DecidableEq

/-- One iteration of `scan_proc`'s `loop` (src/src/lib.rs lines 119-200).
`Err` from `read_proc_stat` prints and `continue`s: the state is untouched,
nothing is written, and — because `continue` jumps over `thread::sleep` — the
iteration does not sleep.  A panic inside `read_proc_stat` unwinds.  On `Ok`
the map is built, the previous state advanced, and the snapshot written:
a failed `File::create` is logged and the loop sleeps on; a failed
`write_all` panics via `unwrap` before the sleep. -/
def scanStep (delay : Nat) (host : String) (st : ScanState)
    (inp : CycleInput) : CycleResult :=
  match read_proc_stat inp.statSource with
  | .err =>
    { state := st, written := none, slept := false, panicked := false }
  | .panicked =>
    { state := st, written := none, slept := false, panicked := true }
  | .ok total_cpu_time =>
    let pid_map := inp.procs.foldl
      (cycleMapStep st.previous_stats st.previous_cpu_time total_cpu_time) []
    let st2 : ScanState :=
      { previous_stats := some pid_map, previous_cpu_time := total_cpu_time }
    let snap : EncoDecode :=
      { hostname := host, pid_map_list := pid_map,
        time_epoch := inp.time_epoch, delay := delay,
        total_cpu_time := total_cpu_time }
    match inp.writeOutcome with
    | .createFailed =>
      { state := st2, written := none, slept := true, panicked := false }
    | .writeFailed =>
      { state := st2, written := none, slept := false, panicked := true }
    | .ok =>
      { state := st2, written := some snap, slept := true, panicked := false }

/-! ### Canonical snapshot encoding

Modelled from the spec: the binary serializer itself (`bincode::serialize` /
`bincode::deserialize`, called at src/src/lib.rs line 189 and in the crate
doc example) is an external crate and its code is not part of this
repository.  Spec §6 describes the canonical encoding: a length-prefixed,
fixed-layout serialization with field order significant, the process map as
an explicit count followed by (key, value) pairs, and optional fields behind
an explicit presence flag.  The embedding serializes into a token stream
(`Code := List Nat`, each token standing for a fixed byte group), follows the
struct declaration order, length-prefixes strings and the map, and flags
options with a 0/1 token. -/

/-- A serialized stream: each `Nat` token stands for one fixed-width byte
group of the binary encoding. -/
abbrev Code := List Nat

/-- Encode an unsigned integer as one token. -/
def wNat (n : Nat) : Code := [n]

/-- Decode an unsigned integer; fails on an empty stream. -/
def rNat : Code → Option (Nat × Code)
  | [] => none
  | b :: rest => some (b, rest)

/-- Encode a signed integer: a sign token then a magnitude token. -/
def wInt : Int → Code
  | .ofNat n => [0, n]
  | .negSucc n => [1, n]

/-- Decode a signed integer. -/
def rInt : Code → Option (Int × Code)
  | 0 :: n :: rest => some (.ofNat n, rest)
  | 1 :: n :: rest => some (.negSucc n, rest)
  | _ => none

/-- Encode a rational (the embedding of an `f64` field) as numerator then
denominator. -/
def wRat (q : ℚ) : Code := wInt q.num ++ wNat q.den

/-- Decode a rational: read numerator and denominator, rebuild by exact
division. -/
def rRat (l : Code) : Option (ℚ × Code) := do
  let (n, l1) ← rInt l
  let (d, l2) ← rNat l1
  pure ((n : ℚ) / (d : ℚ), l2)

/-- Encode a character as its code point. -/
def wChar (c : Char) : Code := [c.toNat]

/-- Decode a character. -/
def rChar : Code → Option (Char × Code)
  | [] => none
  | b :: rest => some (Char.ofNat b, rest)

/-- Encode a list as an explicit count followed by the encoded elements. -/
def wList (w : α → Code) (xs : List α) : Code :=
  wNat xs.length ++ xs.foldr (fun a acc => w a ++ acc) []

/-- Decode exactly `n` elements. -/
def rListAux (r : Code → Option (α × Code)) : Nat → Code → Option (List α × Code)
  | 0, l => some ([], l)
  | n + 1, l => do
    let (a, l1) ← r l
    let (as, l2) ← rListAux r n l1
    pure (a :: as, l2)

/-- Decode a count-prefixed list. -/
def rList (r : Code → Option (α × Code)) (l : Code) : Option (List α × Code) := do
  let (n, l1) ← rNat l
  rListAux r n l1

/-- Encode a string as a length-prefixed sequence of characters. -/
def wString (s : String) : Code := wList wChar s.data

/-- Decode a length-prefixed string. -/
def rString (l : Code) : Option (String × Code) := do
  let (cs, l1) ← rList rChar l
  pure (String.mk cs, l1)

/-- Encode an optional value behind an explicit presence flag. -/
def wOption (w : α → Code) : Option α → Code
  | none => [0]
  | some a => 1 :: w a

/-- Decode a presence-flagged optional value. -/
def rOption (r : Code → Option (α × Code)) : Code → Option (Option α × Code)
  | 0 :: rest => some (none, rest)
  | 1 :: rest => (r rest).map (fun al => (some al.1, al.2))
  | _ => none

/-- Encode one `PidStatus` record, fields in declaration order. -/
def wPidStatus (p : PidStatus) : Code :=
  wInt p.ppid ++ wInt p.euid ++ wList wString p.cmd_long ++ wString p.name ++
  wString p.cmd_short ++ wInt p.tracerpid ++ wNat p.fdsize ++ wString p.state ++
  wOption wNat p.vmpeak ++ wOption wNat p.vmsize ++ wInt p.rss_pages ++
  wInt p.rss_bytes ++ wNat p.rsslim_bytes ++ wOption wInt p.processor_last_executed ++
  wNat p.utime ++ wNat p.stime ++ wRat p.user_cpu_usage ++ wRat p.sys_cpu_usage

/-- Decode the second half of a `PidStatus` record (fields `vmsize` onward),
given the already-decoded first nine fields. -/
def rPidStatusTail (ppid euid : Int) (cmd_long : List String)
    (name cmd_short : String) (tracerpid : Int) (fdsize : Nat)
    (state : String) (vmpeak : Option Nat) (l : Code) :
    Option (PidStatus × Code) := do
  let a10 ← rOption rNat l
  let a11 ← rInt a10.2
  let a12 ← rInt a11.2
  let a13 ← rNat a12.2
  let a14 ← rOption rInt a13.2
  let a15 ← rNat a14.2
  let a16 ← rNat a15.2
  let a17 ← rRat a16.2
  let a18 ← rRat a17.2
  pure ({ ppid := ppid, euid := euid, cmd_long := cmd_long, name := name,
          cmd_short := cmd_short, tracerpid := tracerpid, fdsize := fdsize,
          state := state, vmpeak := vmpeak, vmsize := a10.1,
          rss_pages := a11.1, rss_bytes := a12.1, rsslim_bytes := a13.1,
          processor_last_executed := a14.1, utime := a15.1, stime := a16.1,
          user_cpu_usage := a17.1, sys_cpu_usage := a18.1 }, a18.2)

/-- Decode one `PidStatus` record. -/
def rPidStatus (l : Code) : Option (PidStatus × Code) := do
  let a1 ← rInt l
  let a2 ← rInt a1.2
  let a3 ← rList rString a2.2
  let a4 ← rString a3.2
  let a5 ← rString a4.2
  let a6 ← rInt a5.2
  let a7 ← rNat a6.2
  let a8 ← rString a7.2
  let a9 ← rOption rNat a8.2
  rPidStatusTail a1.1 a2.1 a3.1 a4.1 a5.1 a6.1 a7.1 a8.1 a9.1 a9.2

/-- Encode one (pid, record) map entry. -/
def wEntry (e : Int × PidStatus) : Code := wInt e.1 ++ wPidStatus e.2

/-- Decode one (pid, record) map entry. -/
def rEntry (l : Code) : Option ((Int × PidStatus) × Code) := do
  let (k, l1) ← rInt l
  let (v, l2) ← rPidStatus l1
  pure ((k, v), l2)

/-- Encode a full snapshot (`EncoDecode`), fields in declaration order, the
map as a count-prefixed list of entries. -/
def encode_snapshot (e : EncoDecode) : Code :=
  wString e.hostname ++ wList wEntry e.pid_map_list ++ wNat e.time_epoch ++
  wNat e.delay ++ wNat e.total_cpu_time

/-- Decode a full snapshot. -/
def decode_snapshot (l : Code) : Option EncoDecode := do
  let (hostname, l) ← rString l
  let (pid_map_list, l) ← rList rEntry l
  let (time_epoch, l) ← rNat l
  let (delay, l) ← rNat l
  let (total_cpu_time, _) ← rNat l
  pure { hostname := hostname, pid_map_list := pid_map_list,
         time_epoch := time_epoch, delay := delay,
         total_cpu_time := total_cpu_time }

/-! ### Sample values

Concrete inputs used to instantiate the theorems below on closed data. -/

/-- A previous-cycle record for pid 7 with user ticks 100 and system ticks 7. -/
def samplePrev : PidStatus where
  ppid := 1
  euid := 1000
  cmd_long := ["/bin/bash"]
  name := "bash"
  cmd_short := "bash"
  tracerpid := 0
  fdsize := 4
  state := "S"
  vmpeak := some 100
  vmsize := some 90
  rss_pages := 5
  rss_bytes := 20480
  rsslim_bytes := 999
  processor_last_executed := some 0
  utime := 100
  stime := 7
  user_cpu_usage := 0
  sys_cpu_usage := 0

/-- A previous-cycle record for pid 7 whose tick counts exceed the current
ones (as after pid reuse). -/
def negPrev : PidStatus :=
  { samplePrev with utime := 200, stime := 300 }

/-- A readable `procfs::Status` for pid 7 that passes the inclusion filter. -/
def sampleStatus : PStatus where
  name := "bash"
  pid := 7
  ppid := 1
  tracerpid := 0
  euid := 1000
  fdsize := 4
  state := "S"
  vmpeak := some 100
  vmsize := some 90

/-- One enumerated process record for pid 7. -/
def sampleProc : ProcRecord where
  stat :=
    { comm := "bash", rss := 5, rss_bytes := 20480, rsslim := 999,
      processor := some 0, utime := 3, stime := 4 }
  statusResult := some sampleStatus
  cmdlineResult := some ["/bin/bash"]

/-- The first-cycle scan state: no previous map, previous total 0. -/
def sampleState : ScanState where
  previous_stats := none
  previous_cpu_time := 0

/-- A cycle input whose `/proc/stat` read succeeds (total 3, from
`"cpu 1 2"`), enumerating only `sampleProc`, with a successful write. -/
def sampleInput : CycleInput where
  statSource := .line "cpu 1 2"
  procs := [sampleProc]
  time_epoch := 42
  writeOutcome := .ok

/-- The snapshot `scanStep` writes for `sampleState` and `sampleInput`. -/
def sampleSnap : EncoDecode where
  hostname := "myhost"
  pid_map_list := [(7, mkPidStatus none 0 3 sampleProc sampleStatus)]
  time_epoch := 42
  delay := 60
  total_cpu_time := 3

/-- A scan state whose previous map holds `negPrev` for pid 7, previous
total 100. -/
def negState : ScanState where
  previous_stats := some [(7, negPrev)]
  previous_cpu_time := 100

/-- A cycle input for the pid-reuse scenario: `/proc/stat` total 500,
exceeding the previous total 100, while pid 7's current ticks are below
`negPrev`'s. -/
def negInput : CycleInput where
  statSource := .line "cpu 200 300"
  procs := [sampleProc]
  time_epoch := 50
  writeOutcome := .ok

/-! ### Round-trip lemmas for the canonical encoding -/

theorem rNat_wNat (n : Nat) (l : Code) : rNat (wNat n ++ l) = some (n, l) := rfl

theorem rInt_wInt (i : Int) (l : Code) : rInt (wInt i ++ l) = some (i, l) := by
  cases i <;> rfl

theorem rRat_wRat (q : ℚ) (l : Code) : rRat (wRat q ++ l) = some (q, l) := by
  simp [wRat, rRat, List.append_assoc, rInt_wInt, rNat_wNat, Rat.num_div_den]

theorem rChar_wChar (c : Char) (l : Code) : rChar (wChar c ++ l) = some (c, l) := by
  simp [wChar, rChar, Char.ofNat_toNat]

theorem foldr_code_append (w : α → Code) (xs : List α) (l : Code) :
    xs.foldr (fun a acc => w a ++ acc) [] ++ l =
      xs.foldr (fun a acc => w a ++ acc) l := by
  induction xs with
  | nil => rfl
  | cons a as ih => simp [List.append_assoc, ih]

theorem rListAux_foldr (r : Code → Option (α × Code)) (w : α → Code)
    (hr : ∀ a l, r (w a ++ l) = some (a, l)) (xs : List α) (l : Code) :
    rListAux r xs.length (xs.foldr (fun a acc => w a ++ acc) l) = some (xs, l) := by
  induction xs generalizing l with
  | nil => rfl
  | cons a as ih => simp [rListAux, hr, ih]

theorem rList_wList (r : Code → Option (α × Code)) (w : α → Code)
    (hr : ∀ a l, r (w a ++ l) = some (a, l)) (xs : List α) (l : Code) :
    rList r (wList w xs ++ l) = some (xs, l) := by
  simp [rList, wList, wNat, List.append_assoc, foldr_code_append]
  have h := rListAux_foldr r w hr xs l
  simp [rNat, h]

theorem string_mk_data (s : String) : String.mk s.data = s := rfl

theorem rString_wString (s : String) (l : Code) :
    rString (wString s ++ l) = some (s, l) := by
  simp [rString, wString, rList_wList rChar wChar rChar_wChar, string_mk_data]

theorem rOption_wOption (r : Code → Option (α × Code)) (w : α → Code)
    (hr : ∀ a l, r (w a ++ l) = some (a, l)) (o : Option α) (l : Code) :
    rOption r (wOption w o ++ l) = some (o, l) := by
  cases o with
  | none => rfl
  | some a => simp [wOption, rOption, hr]

set_option maxHeartbeats 2000000 in
theorem rPidStatus_wPidStatus (p : PidStatus) (l : Code) :
    rPidStatus (wPidStatus p ++ l) = some (p, l) := by
  simp [Option.bind_eq_bind, Option.pure_def, Option.bind,
    rPidStatus, rPidStatusTail, wPidStatus, List.append_assoc,
    rInt_wInt, rNat_wNat, rRat_wRat, rString_wString,
    rOption_wOption rNat wNat rNat_wNat,
    rOption_wOption rInt wInt rInt_wInt,
    rList_wList rString wString rString_wString]

theorem rEntry_wEntry (e : Int × PidStatus) (l : Code) :
    rEntry (wEntry e ++ l) = some (e, l) := by
  simp [rEntry, wEntry, List.append_assoc, rInt_wInt, rPidStatus_wPidStatus]

/-- C9: for every snapshot value, decoding the canonical encoding of the
snapshot yields the original value in every field: decode(encode(x)) = x. -/
theorem c9_snapshot_roundtrip (x : EncoDecode) :
    decode_snapshot (encode_snapshot x) = some x := by
  simp [decode_snapshot, encode_snapshot, List.append_assoc,
    rString_wString, rNat_wNat, rNat, wNat,
    rList_wList rEntry wEntry rEntry_wEntry]

/-- C1: for every pid present in the previous map, `get_cpu_usage` with kind
"user" (resp. "system") returns 100 * (current ticks of that kind minus the
previous recorded ticks) / (current total ticks minus previous total ticks);
with previous user ticks 100, current 150, previous total 10000 and current
total 10500 the result is exactly 10. -/
theorem c1_usage_formula (m : List (Int × PidStatus)) (pid : Int)
    (p : PidStatus) (cur tot ptot : Nat) (hm : m.lookup pid = some p) :
    get_cpu_usage "user" pid (some m) cur tot ptot =
      100 * ((cur : ℚ) - (p.utime : ℚ)) / ((tot : ℚ) - (ptot : ℚ)) ∧
    get_cpu_usage "system" pid (some m) cur tot ptot =
      100 * ((cur : ℚ) - (p.stime : ℚ)) / ((tot : ℚ) - (ptot : ℚ)) ∧
    (p.utime = 100 → cur = 150 → tot = 10500 → ptot = 10000 →
      get_cpu_usage "user" pid (some m) cur tot ptot = 10) := by
  refine ⟨by simp [get_cpu_usage, hm], by simp [get_cpu_usage, hm], ?_⟩
  intro h1 h2 h3 h4
  subst h2 h3 h4
  simp [get_cpu_usage, hm, h1]
  norm_num

/-- C1 witness: the formula and the 10.0 example at pid 7 with `samplePrev`
(previous user ticks 100). -/
theorem c1_usage_formula_witness :
    [((7 : Int), samplePrev)].lookup 7 = some samplePrev ∧
    get_cpu_usage "user" 7 (some [(7, samplePrev)]) 150 10500 10000 = 10 :=
  ⟨rfl, (c1_usage_formula [(7, samplePrev)] 7 samplePrev 150 10500 10000
    rfl).2.2 rfl rfl rfl rfl⟩

/-- C2: `get_cpu_usage` returns exactly 0 when the previous map is absent
(first cycle) and when the queried pid has no entry in the previous map,
regardless of all tick-count arguments, for both "user" and "system". -/
theorem c2_usage_zero_when_no_previous (pid : Int) (cur tot ptot : Nat)
    (m : List (Int × PidStatus)) (hab : m.lookup pid = none) :
    get_cpu_usage "user" pid none cur tot ptot = 0 ∧
    get_cpu_usage "system" pid none cur tot ptot = 0 ∧
    get_cpu_usage "user" pid (some m) cur tot ptot = 0 ∧
    get_cpu_usage "system" pid (some m) cur tot ptot = 0 := by
  refine ⟨rfl, rfl, ?_, ?_⟩ <;> simp [get_cpu_usage, hab]

/-- C2 witness: pid 3 is absent from the map holding only pid 7. -/
theorem c2_usage_zero_when_no_previous_witness :
    [((7 : Int), samplePrev)].lookup 3 = none ∧
    get_cpu_usage "user" 3 none 55 66 77 = 0 ∧
    get_cpu_usage "user" 3 (some [(7, samplePrev)]) 55 66 77 = 0 :=
  ⟨rfl,
   (c2_usage_zero_when_no_previous 3 55 66 77 [(7, samplePrev)] rfl).1,
   (c2_usage_zero_when_no_previous 3 55 66 77 [(7, samplePrev)] rfl).2.2.1⟩

/-- C3 counterexample: for the unknown kind "cpu", with pid 7 present in the
previous map and nonzero tick counts, `get_cpu_usage` does not fail: it
returns the numeric value 0. -/
theorem c3_unknown_kind_counterexample :
    get_cpu_usage "cpu" 7 (some [(7, samplePrev)]) 500 1000 0 = 0 := by
  decide

/-- C3 (amended): for every kind argument other than "user" and "system",
`get_cpu_usage` logs a message and returns the numeric value 0.0; it does
not signal an invalid-argument error to the caller. -/
theorem c3_unknown_kind_returns_zero (type_of : String) (pid : Int)
    (previous : Option (List (Int × PidStatus))) (cur tot ptot : Nat)
    (hu : type_of ≠ "user") (hs : type_of ≠ "system") :
    get_cpu_usage type_of pid previous cur tot ptot = 0 := by
  simp [get_cpu_usage, hu, hs]

/-- C3 witness: the amended claim at the unknown kind "total". -/
theorem c3_unknown_kind_returns_zero_witness :
    ("total" ≠ "user" ∧ "total" ≠ "system") ∧
    get_cpu_usage "total" 7 (some [(7, samplePrev)]) 500 1000 0 = 0 :=
  ⟨by decide,
   c3_unknown_kind_returns_zero "total" 7 (some [(7, samplePrev)]) 500 1000 0
     (by decide) (by decide)⟩

theorem cycleMapStep_invariant (previous : Option (List (Int × PidStatus)))
    (pc tc : Nat) (m : List (Int × PidStatus)) (prc : ProcRecord)
    (hm : ∀ kv ∈ m, kv.2.vmpeak ≠ none ∧ kv.2.rss_pages ≠ 0 ∧ 0 ≤ kv.1) :
    ∀ kv ∈ cycleMapStep previous pc tc m prc,
      kv.2.vmpeak ≠ none ∧ kv.2.rss_pages ≠ 0 ∧ 0 ≤ kv.1 := by
  intro kv hkv
  unfold cycleMapStep at hkv
  by_cases h : (prc.statusResult.getD dummy_pid_status).vmpeak = none ∨
      prc.stat.rss = 0 ∨ (prc.statusResult.getD dummy_pid_status).pid < 0
  · rw [if_pos h] at hkv
    exact hm kv hkv
  · rw [if_neg h] at hkv
    push_neg at h
    unfold insertA at hkv
    rcases List.mem_cons.mp hkv with heq | hmem
    · subst heq
      exact ⟨by simp [mkPidStatus, h.1], by simp [mkPidStatus, h.2.1], h.2.2⟩
    · exact hm kv (List.mem_of_mem_filter hmem)

theorem foldl_cycleMapStep_invariant (previous : Option (List (Int × PidStatus)))
    (pc tc : Nat) (procs : List ProcRecord) :
    ∀ m, (∀ kv ∈ m, kv.2.vmpeak ≠ none ∧ kv.2.rss_pages ≠ 0 ∧ 0 ≤ kv.1) →
    ∀ kv ∈ procs.foldl (cycleMapStep previous pc tc) m,
      kv.2.vmpeak ≠ none ∧ kv.2.rss_pages ≠ 0 ∧ 0 ≤ kv.1 := by
  induction procs with
  | nil => intro m hm kv h; exact hm kv h
  | cons prc rest ih =>
    intro m hm
    exact ih _ (cycleMapStep_invariant previous pc tc m prc hm)

/-- C4: every `PidStatus` stored in a snapshot written by the collector has a
present `vmpeak`, a nonzero `rss_pages`, and a non-negative pid key; records
violating any of the three are excluded from the map. -/
theorem c4_inclusion_invariant (delay : Nat) (host : String) (st : ScanState)
    (inp : CycleInput) (snap : EncoDecode)
    (hw : (scanStep delay host st inp).written = some snap) :
    ∀ kv ∈ snap.pid_map_list,
      kv.2.vmpeak ≠ none ∧ kv.2.rss_pages ≠ 0 ∧ 0 ≤ kv.1 := by
  unfold scanStep at hw
  cases hr : read_proc_stat inp.statSource with
  | err => rw [hr] at hw; cases hw
  | panicked => rw [hr] at hw; cases hw
  | ok tc =>
    rw [hr] at hw
    cases hwo : inp.writeOutcome with
    | createFailed => simp [hwo] at hw
    | writeFailed => simp [hwo] at hw
    | ok =>
      simp [hwo] at hw
      subst hw
      exact foldl_cycleMapStep_invariant st.previous_stats st.previous_cpu_time
        tc inp.procs [] (by intro kv h; cases h)

/-- C4 witness: the snapshot written for `sampleState`/`sampleInput` holds
pid 7's record, and every entry satisfies the invariant. -/
theorem c4_inclusion_invariant_witness :
    (scanStep 60 "myhost" sampleState sampleInput).written = some sampleSnap ∧
    ∀ kv ∈ sampleSnap.pid_map_list,
      kv.2.vmpeak ≠ none ∧ kv.2.rss_pages ≠ 0 ∧ 0 ≤ kv.1 :=
  ⟨by decide,
   c4_inclusion_invariant 60 "myhost" sampleState sampleInput sampleSnap
     (by decide)⟩

/-- C5: if the aggregate CPU time reader fails in a cycle, the retained state
(previous map and previous total) entering the next cycle is identical to
what it was entering this cycle, and no snapshot is written. -/
theorem c5_reader_failure_isolation (delay : Nat) (host : String)
    (st : ScanState) (inp : CycleInput)
    (h : read_proc_stat inp.statSource = .err) :
    (scanStep delay host st inp).state = st ∧
    (scanStep delay host st inp).written = none := by
  unfold scanStep
  rw [h]
  exact ⟨rfl, rfl⟩

/-- C5 witness: an unopenable `/proc/stat` with a non-trivial retained state. -/
theorem c5_reader_failure_isolation_witness :
    read_proc_stat ProcStatSource.cantOpen = .err ∧
    (scanStep 60 "myhost" negState
        { statSource := .cantOpen, procs := [sampleProc], time_epoch := 9,
          writeOutcome := .ok }).state = negState ∧
    (scanStep 60 "myhost" negState
        { statSource := .cantOpen, procs := [sampleProc], time_epoch := 9,
          writeOutcome := .ok }).written = none :=
  ⟨rfl,
   (c5_reader_failure_isolation 60 "myhost" negState
     { statSource := .cantOpen, procs := [sampleProc], time_epoch := 9,
       writeOutcome := .ok } rfl).1,
   (c5_reader_failure_isolation 60 "myhost" negState
     { statSource := .cantOpen, procs := [sampleProc], time_epoch := 9,
       writeOutcome := .ok } rfl).2⟩

/-- C6 (code evaluation): in a cycle whose `/proc/stat` read fails, the
`continue` at src/src/lib.rs line 129 jumps back to the top of the loop and
the iteration never reaches `thread::sleep` — `slept` is `false`, where the
claim requires the collector to sleep for the configured delay. -/
theorem c6_reader_failure_skips_sleep :
    (scanStep 60 "myhost" sampleState
        { statSource := .cantOpen, procs := [], time_epoch := 0,
          writeOutcome := .ok }).slept = false ∧
    (scanStep 60 "myhost" sampleState sampleInput).slept = true := by
  decide

/-- C7 (code evaluation): a first line of `/proc/stat` holding the
whitespace-separated field "abc", which fails `parse::<u64>()`, makes
`read_proc_stat` panic through `unwrap` (src/src/lib.rs line 274) instead of
returning an error value; open failures and a missing first line do return
error values. -/
theorem c7_parse_failure_panics :
    read_proc_stat (.line "cpu  100 abc") = .panicked ∧
    read_proc_stat .cantOpen = .err ∧
    read_proc_stat .noFirstLine = .err ∧
    read_proc_stat (.line "cpu  100 200 300 50 10 0 0 0 0 0") = .ok 660 :=
  ⟨rfl, rfl, rfl, rfl⟩

/-- C8 (code evaluation): when the snapshot file is created but `write_all`
fails, the `unwrap` at src/src/lib.rs line 196 panics and the loop
terminates (`panicked = true`), where the claim requires every write failure
to be logged and the loop to continue; a failed `File::create` is indeed
only logged and the loop sleeps on. -/
theorem c8_write_failure_panics :
    (scanStep 60 "myhost" sampleState
        { statSource := .line "cpu 1 2", procs := [sampleProc],
          time_epoch := 42, writeOutcome := .writeFailed }).panicked = true ∧
    (scanStep 60 "myhost" sampleState
        { statSource := .line "cpu 1 2", procs := [sampleProc],
          time_epoch := 42, writeOutcome := .createFailed }).panicked = false ∧
    (scanStep 60 "myhost" sampleState
        { statSource := .line "cpu 1 2", procs := [sampleProc],
          time_epoch := 42, writeOutcome := .createFailed }).slept = true := by
  decide

/-- C10 (implicit): when a pid is present in the previous map with recorded
ticks of the requested kind exceeding the current ticks, `get_cpu_usage`
computes the (exact) difference and yields a negative percentage for that
kind — user ticks below the recorded `utime` give a negative
`user_cpu_usage` and system ticks below the recorded `stime` give a negative
`sys_cpu_usage`; the cycle does not panic, neither value is clamped, and
both are stored unchanged in the written snapshot's record. -/
theorem c10_negative_usage_persisted (delay : Nat) (host : String)
    (st : ScanState) (m : List (Int × PidStatus)) (p : PidStatus)
    (prc : ProcRecord) (stt : PStatus) (tot : Nat) (inp : CycleInput)
    (hprev : st.previous_stats = some m)
    (hst : prc.statusResult = some stt)
    (hvm : stt.vmpeak ≠ none) (hrss : prc.stat.rss ≠ 0) (hpid : ¬stt.pid < 0)
    (hlook : m.lookup stt.pid = some p)
    (hcur : prc.stat.utime < p.utime)
    (hscur : prc.stat.stime < p.stime)
    (htot : st.previous_cpu_time < tot)
    (hread : read_proc_stat inp.statSource = .ok tot)
    (hprocs : inp.procs = [prc])
    (hwo : inp.writeOutcome = .ok) :
    (scanStep delay host st inp).panicked = false ∧
    (scanStep delay host st inp).written = some
      { hostname := host,
        pid_map_list :=
          [(stt.pid,
            mkPidStatus st.previous_stats st.previous_cpu_time tot prc stt)],
        time_epoch := inp.time_epoch, delay := delay,
        total_cpu_time := tot } ∧
    (mkPidStatus st.previous_stats st.previous_cpu_time tot prc stt).user_cpu_usage =
      100 * ((prc.stat.utime : ℚ) - (p.utime : ℚ)) /
        ((tot : ℚ) - (st.previous_cpu_time : ℚ)) ∧
    (mkPidStatus st.previous_stats st.previous_cpu_time tot prc stt).user_cpu_usage < 0 ∧
    (mkPidStatus st.previous_stats st.previous_cpu_time tot prc stt).sys_cpu_usage =
      100 * ((prc.stat.stime : ℚ) - (p.stime : ℚ)) /
        ((tot : ℚ) - (st.previous_cpu_time : ℚ)) ∧
    (mkPidStatus st.previous_stats st.previous_cpu_time tot prc stt).sys_cpu_usage < 0 := by
  have hform : (mkPidStatus st.previous_stats st.previous_cpu_time tot prc
      stt).user_cpu_usage =
      100 * ((prc.stat.utime : ℚ) - (p.utime : ℚ)) /
        ((tot : ℚ) - (st.previous_cpu_time : ℚ)) := by
    simp [mkPidStatus, hprev, get_cpu_usage, hlook]
  have hsform : (mkPidStatus st.previous_stats st.previous_cpu_time tot prc
      stt).sys_cpu_usage =
      100 * ((prc.stat.stime : ℚ) - (p.stime : ℚ)) /
        ((tot : ℚ) - (st.previous_cpu_time : ℚ)) := by
    simp [mkPidStatus, hprev, get_cpu_usage, hlook]
  have hnum : (prc.stat.utime : ℚ) - (p.utime : ℚ) < 0 := by
    rw [sub_neg]
    exact_mod_cast hcur
  have hsnum : (prc.stat.stime : ℚ) - (p.stime : ℚ) < 0 := by
    rw [sub_neg]
    exact_mod_cast hscur
  have hden : (0 : ℚ) < (tot : ℚ) - (st.previous_cpu_time : ℚ) := by
    rw [sub_pos]
    exact_mod_cast htot
  have hneg : 100 * ((prc.stat.utime : ℚ) - (p.utime : ℚ)) /
      ((tot : ℚ) - (st.previous_cpu_time : ℚ)) < 0 :=
    div_neg_of_neg_of_pos (mul_neg_of_pos_of_neg (by norm_num) hnum) hden
  have hsneg : 100 * ((prc.stat.stime : ℚ) - (p.stime : ℚ)) /
      ((tot : ℚ) - (st.previous_cpu_time : ℚ)) < 0 :=
    div_neg_of_neg_of_pos (mul_neg_of_pos_of_neg (by norm_num) hsnum) hden
  refine ⟨?_, ?_, hform, hform ▸ hneg, hsform, hsform ▸ hsneg⟩
  · simp [scanStep, hread, hprocs, hwo]
  · simp [scanStep, hread, hprocs, hwo, cycleMapStep, hst, hvm, hrss, hpid,
      insertA]

/-- C10 witness: pid 7 recorded 200 user ticks and 300 system ticks in the
previous cycle but shows 3 and 4 now; the stored user usage is
100·(3−200)/(500−100) < 0, the stored system usage is
100·(4−300)/(500−100) < 0, and both land in the written snapshot. -/
theorem c10_negative_usage_persisted_witness :
    (scanStep 60 "myhost" negState negInput).written = some
      { hostname := "myhost",
        pid_map_list :=
          [(7, mkPidStatus (some [(7, negPrev)]) 100 500 sampleProc
            sampleStatus)],
        time_epoch := 50, delay := 60, total_cpu_time := 500 } ∧
    (mkPidStatus (some [(7, negPrev)]) 100 500 sampleProc
      sampleStatus).user_cpu_usage < 0 ∧
    (mkPidStatus (some [(7, negPrev)]) 100 500 sampleProc
      sampleStatus).sys_cpu_usage < 0 :=
  ⟨(c10_negative_usage_persisted 60 "myhost" negState [(7, negPrev)] negPrev
      sampleProc sampleStatus 500 negInput rfl rfl (by decide) (by decide)
      (by decide) rfl (by decide) (by decide) (by decide) rfl rfl rfl).2.1,
   (c10_negative_usage_persisted 60 "myhost" negState [(7, negPrev)] negPrev
      sampleProc sampleStatus 500 negInput rfl rfl (by decide) (by decide)
      (by decide) rfl (by decide) (by decide) (by decide) rfl rfl rfl).2.2.2.1,
   (c10_negative_usage_persisted 60 "myhost" negState [(7, negPrev)] negPrev
      sampleProc sampleStatus 500 negInput rfl rfl (by decide) (by decide)
      (by decide) rfl (by decide) (by decide) (by decide) rfl rfl rfl).2.2.2.2.2⟩
